import Mathlib

/-!
# Verification of the `LoggerController` event-log recorder

Shallow embedding of `src/core/logger_controller.py` (the structured
logging/reporting core of the plw-demo test framework).

Modelling conventions:
* Wall-clock time (`datetime.datetime.now()`) is an environment input; every
  operation that reads the clock takes an explicit `now : Nat` argument
  (abstract ticks; Python's ISO-8601 timestamp strings compare
  chronologically, so `Nat` ordering is faithful).
* Call-stack provenance (`_get_caller_info`) is an environment input as well:
  each public operation takes the `caller : String` that stack inspection
  would resolve.
* Python dictionaries for `extra_data` are association lists with unique
  keys in insertion order; `dict.update` is embedded key-by-key preserving
  the position of overwritten keys, as CPython does.
* Numeric rendering of floats inside messages (Python's `f"{x:.2f}"`) is
  abstracted by `toString` on rationals; no claim depends on those digits.
* The console sink (the Python `logging` handler) only mirrors entries as a
  side effect and never changes recorder state; it is not modelled.
* File writes are modelled by the content the function would write
  (`ExportResult`); the function's result type is `Except` so that a raising
  execution path would be representable (`.error`), though the format
  dispatch itself never raises.
-/

set_option autoImplicit false

namespace PlwDemo

/-- Embedding of `LogLevel` enumeration (`class LogLevel(Enum)`). -/
inductive LogLevel where
  | DEBUG
  | INFO
  | WARNING
  | ERROR
  | CRITICAL
deriving DecidableEq, Repr

/-- The string payload of each enum member (`LogLevel.X.value`). -/
def LogLevel.value : LogLevel → String
  | .DEBUG => "DEBUG"
  | .INFO => "INFO"
  | .WARNING => "WARNING"
  | .ERROR => "ERROR"
  | .CRITICAL => "CRITICAL"

/-- The five members in declaration order, as Python's `for level in LogLevel`
iterates them. -/
def allLevels : List LogLevel :=
  [.DEBUG, .INFO, .WARNING, .ERROR, .CRITICAL]

/-- A value stored in an `extra_data` payload (the spec's tagged union:
string | number | bool | null). Numbers are rationals; no claim performs
float arithmetic. -/
inductive Value where
  | str (s : String)
  | num (q : ℚ)
  | bool (b : Bool)
  | null
deriving DecidableEq, Repr

/-- An `extra_data` payload: a Python dict as an insertion-ordered
association list. -/
abbrev Dict := List (String × Value)

/-- First-match lookup, `d[k]` / `d.get(k)`. -/
def dictGet (d : Dict) (k : String) : Option Value :=
  (d.find? (fun p => p.1 = k)).map (fun p => p.2)

/-- Embedding of `d[k] = v` for a single key: overwrites in place when the key is
present, appends otherwise (CPython dict semantics). -/
def dictSet (d : Dict) (k : String) (v : Value) : Dict :=
  if d.any (fun p => p.1 = k) then
    d.map (fun p => if p.1 = k then (k, v) else p)
  else
    d ++ [(k, v)]

/-- Embedding of `d.update(e)`: sets every pair of `e` into `d`, left to right. -/
def dictUpdate (d e : Dict) : Dict :=
  e.foldl (fun acc p => dictSet acc p.1 p.2) d

/-- The keys of a dict, in order. -/
def dictKeys (d : Dict) : List String := d.map (fun p => p.1)

/-- Embedding of `@dataclass class LogEntry` — one recorded log event.  `level` is stored
as the enum member's string payload, exactly as `_log` stores
`level.value`. -/
structure LogEntry where
  timestamp : Nat
  level : String
  message : String
  test_name : String
  caller_info : String
  step_name : Option String
  extra_data : Dict
deriving DecidableEq, Repr

/-- Embedding of `LogEntry.to_dict` (`dataclasses.asdict`): the serialized view of an
entry, one field per dataclass field, `extra_data` as a nested object. -/
structure LogEntryDict where
  timestamp : Nat
  level : String
  message : String
  test_name : String
  caller_info : String
  step_name : Option String
  extra_data : Dict
deriving DecidableEq, Repr

def LogEntry.to_dict (e : LogEntry) : LogEntryDict :=
  { timestamp := e.timestamp
    level := e.level
    message := e.message
    test_name := e.test_name
    caller_info := e.caller_info
    step_name := e.step_name
    extra_data := e.extra_data }

/-- The mutable state of one `LoggerController` instance.  The Python
`logging` handler objects carry no recorder-visible state and are
omitted. -/
structure LoggerController where
  test_name : String
  log_entries : List LogEntry
  current_step : Option String
  test_start_time : Nat
deriving DecidableEq, Repr

namespace LoggerController

/-- Embedding of `__init__(test_name, enable_console)` at construction time `now`. -/
def init (test_name : String) (now : Nat) : LoggerController :=
  { test_name := test_name
    log_entries := []
    current_step := none
    test_start_time := now }

/-- Python truthiness of an `Optional[str]`: `None` and `""` are falsy. -/
def optStrTruthy : Option String → Bool
  | none => false
  | some s => !s.isEmpty

/-- Embedding of `_log(level, message, extra_data)`: builds the entry from the clock, the
resolved caller, the active step and `extra_data or {}`, appends it, and
returns it.  Console emission is a side effect with no recorder state. -/
def log0 (s : LoggerController) (level : LogLevel) (message : String)
    (extra_data : Option Dict) (now : Nat) (caller : String) :
    LoggerController × LogEntry :=
  let log_entry : LogEntry :=
    { timestamp := now
      level := level.value
      message := message
      test_name := s.test_name
      caller_info := caller
      step_name := s.current_step
      extra_data := extra_data.getD [] }
  ({ s with log_entries := s.log_entries ++ [log_entry] }, log_entry)

/-- Embedding of `set_current_step(step_name)`: records the new step, then appends the
starting marker (so the marker itself carries the new step). -/
def set_current_step (s : LoggerController) (step_name : String)
    (now : Nat) (caller : String) : LoggerController :=
  let s := { s with current_step := some step_name }
  (s.log0 .INFO ("=== Starting Step: " ++ step_name ++ " ===") none now caller).1

/-- Embedding of `clear_current_step()`: appends the completion marker only when the
current step is truthy (not `None`, not `""`), then clears it. -/
def clear_current_step (s : LoggerController) (now : Nat) (caller : String) :
    LoggerController :=
  let s :=
    if optStrTruthy s.current_step then
      (s.log0 .INFO
        ("=== Completed Step: " ++ s.current_step.getD "" ++ " ===")
        none now caller).1
    else s
  { s with current_step := none }

/-- Embedding of `info(message, extra_data)`. -/
def info (s : LoggerController) (message : String) (extra_data : Option Dict)
    (now : Nat) (caller : String) : LoggerController × LogEntry :=
  s.log0 .INFO message extra_data now caller

/-- Embedding of `debug(message, extra_data)`. -/
def debug (s : LoggerController) (message : String) (extra_data : Option Dict)
    (now : Nat) (caller : String) : LoggerController × LogEntry :=
  s.log0 .DEBUG message extra_data now caller

/-- Embedding of `warning(message, extra_data)`. -/
def warning (s : LoggerController) (message : String) (extra_data : Option Dict)
    (now : Nat) (caller : String) : LoggerController × LogEntry :=
  s.log0 .WARNING message extra_data now caller

/-- Embedding of `error(message, extra_data)`. -/
def error (s : LoggerController) (message : String) (extra_data : Option Dict)
    (now : Nat) (caller : String) : LoggerController × LogEntry :=
  s.log0 .ERROR message extra_data now caller

/-- Embedding of `critical(message, extra_data)`. -/
def critical (s : LoggerController) (message : String) (extra_data : Option Dict)
    (now : Nat) (caller : String) : LoggerController × LogEntry :=
  s.log0 .CRITICAL message extra_data now caller

/-- Embedding of `log_assertion(message, passed, extra_data)`. -/
def log_assertion (s : LoggerController) (message : String) (passed : Bool)
    (extra_data : Option Dict) (now : Nat) (caller : String) :
    LoggerController × LogEntry :=
  let status := if passed then "✅ PASSED" else "❌ FAILED"
  let full_message := status ++ " ASSERTION: " ++ message
  s.log0 (if passed then .INFO else .ERROR) full_message extra_data now caller

/-- Embedding of `log_action(action, extra_data)`. -/
def log_action (s : LoggerController) (action : String)
    (extra_data : Option Dict) (now : Nat) (caller : String) :
    LoggerController × LogEntry :=
  s.log0 .INFO ("🔄 ACTION: " ++ action) extra_data now caller

/-- Embedding of `log_screenshot(screenshot_path, description)`. -/
def log_screenshot (s : LoggerController) (screenshot_path : String)
    (description : String) (now : Nat) (caller : String) :
    LoggerController × LogEntry :=
  s.log0 .INFO
    ("📸 SCREENSHOT: " ++ description ++ " - " ++ screenshot_path)
    (some [("screenshot_path", .str screenshot_path)]) now caller

/-- Rendering of `f"{duration_seconds:.2f}"`; the exact decimal digits are
abstracted (no claim depends on them). -/
def renderSeconds (q : ℚ) : String := toString q

/-- Embedding of `log_performance(action, duration_seconds, extra_data)`: builds
`perf_data = {duration_seconds, action}` and then `perf_data.update(extra_data)`
when extra data was supplied, so caller-supplied keys win. -/
def log_performance (s : LoggerController) (action : String)
    (duration_seconds : ℚ) (extra_data : Option Dict) (now : Nat)
    (caller : String) : LoggerController × LogEntry :=
  let message :=
    "⏱️ PERFORMANCE: " ++ action ++ " took "
      ++ renderSeconds duration_seconds ++ "s"
  let perf_data : Dict :=
    [("duration_seconds", .num duration_seconds), ("action", .str action)]
  let perf_data :=
    match extra_data with
    | some e => if e.isEmpty then perf_data else dictUpdate perf_data e
    | none => perf_data
  s.log0 .INFO message (some perf_data) now caller

/-- Embedding of `step_passed(step_name, message)`. -/
def step_passed (s : LoggerController) (step_name message : String)
    (now : Nat) (caller : String) : LoggerController × LogEntry :=
  s.log0 .INFO ("✅ STEP PASSED: " ++ step_name ++ " - " ++ message)
    none now caller

/-- Embedding of `step_failed(step_name, message)`. -/
def step_failed (s : LoggerController) (step_name message : String)
    (now : Nat) (caller : String) : LoggerController × LogEntry :=
  s.log0 .ERROR ("❌ STEP FAILED: " ++ step_name ++ " - " ++ message)
    none now caller

/-- Embedding of `step_skipped(step_name, message)`. -/
def step_skipped (s : LoggerController) (step_name message : String)
    (now : Nat) (caller : String) : LoggerController × LogEntry :=
  s.log0 .WARNING ("⏭️ STEP SKIPPED: " ++ step_name ++ " - " ++ message)
    none now caller

/-- Embedding of `get_logs_by_level(level)`: entries whose stored level string equals
`level.value`. -/
def get_logs_by_level (s : LoggerController) (level : LogLevel) :
    List LogEntry :=
  s.log_entries.filter (fun e => e.level = level.value)

/-- Embedding of `get_logs_by_step(step_name)`: entries whose `step_name` equals the
queried string (a `None` step never equals a `str`). -/
def get_logs_by_step (s : LoggerController) (step_name : String) :
    List LogEntry :=
  s.log_entries.filter (fun e => e.step_name = some step_name)

/-- Embedding of `get_error_logs()`. -/
def get_error_logs (s : LoggerController) : List LogEntry :=
  s.log_entries.filter
    (fun e => e.level = LogLevel.ERROR.value ∨ e.level = LogLevel.CRITICAL.value)

/-- ASCII lowercasing of one character (`str.lower()` on the ASCII format
tokens and level names this code lowercases). -/
def lowerChar (c : Char) : Char :=
  if 'A' ≤ c ∧ c ≤ 'Z' then Char.ofNat (c.toNat + 32) else c

/-- Python `str.lower()`, embedded structurally so it evaluates. -/
def pyLower (s : String) : String := String.mk (s.data.map lowerChar)

/-- Per-level count table (`logs_by_level` dict), keyed by the lowercased
level names in enum order. -/
def natGet (d : List (String × Nat)) (k : String) : Nat :=
  ((d.find? (fun p => p.1 = k)).map (fun p => p.2)).getD 0

/-- The dictionary returned by `get_test_summary()`. -/
structure TestSummary where
  test_name : String
  start_time : Nat
  duration_seconds : Int
  total_log_entries : Nat
  logs_by_level : List (String × Nat)
  has_errors : Bool
  error_count : Nat
  current_step : Option String
deriving DecidableEq, Repr

/-- Embedding of `get_test_summary()` computed against the clock value `now`. -/
def get_test_summary (s : LoggerController) (now : Nat) : TestSummary :=
  let total_logs := s.log_entries.length
  let logs_by_level :=
    allLevels.map (fun l => (pyLower l.value, (s.get_logs_by_level l).length))
  let error_count := natGet logs_by_level "error" + natGet logs_by_level "critical"
  { test_name := s.test_name
    start_time := s.test_start_time
    duration_seconds := (now : Int) - (s.test_start_time : Int)
    total_log_entries := total_logs
    logs_by_level := logs_by_level
    has_errors := decide (0 < error_count)
    error_count := error_count
    current_step := s.current_step }

/-- The JSON export document: `{"test_summary": ..., "log_entries": [...]}`. -/
structure JsonExport where
  test_summary : TestSummary
  log_entries : List LogEntryDict
deriving DecidableEq, Repr

/-- A one-character string from a code point (used for characters the
development cannot spell literally in string literals). -/
def chr (n : Nat) : String := String.singleton (Char.ofNat n)

/-- Python `repr` of a `Value` (escaping inside string payloads is
abstracted). -/
def pyRepr : Value → String
  | .str s => chr 39 ++ s ++ chr 39
  | .num q => toString q
  | .bool b => if b then "True" else "False"
  | .null => "None"

/-- Python `repr` of a dict, as an f-string interpolation renders
`extra_data`. -/
def pyDictRepr (d : Dict) : String :=
  chr 123
    ++ String.intercalate ", "
      (d.map (fun p => chr 39 ++ p.1 ++ chr 39 ++ ": " ++ pyRepr p.2))
    ++ chr 125

/-- Embedding of `json.dumps` of a `Value` (string escaping abstracted). -/
def jsonOfValue : Value → String
  | .str s => "\"" ++ s ++ "\""
  | .num q => toString q
  | .bool b => if b then "true" else "false"
  | .null => "null"

/-- Embedding of `json.dumps` of an `extra_data` dict (compact, one object). -/
def jsonOfDict (d : Dict) : String :=
  "\x7b"
    ++ String.intercalate ", "
      (d.map (fun p => "\"" ++ p.1 ++ "\": " ++ jsonOfValue p.2))
    ++ "\x7d"

/-- The sequence of `f.write(...)` payloads the `txt` branch emits for a
single entry: the formatted line, the indented extra-data line when the
payload is non-empty, and the separating blank line. -/
def txtEntryWrites (e : LogEntry) : List String :=
  let step_info :=
    if optStrTruthy e.step_name then "[" ++ e.step_name.getD "" ++ "] " else ""
  let caller_part :=
    if e.caller_info.isEmpty then "" else " (" ++ e.caller_info ++ ")"
  [toString e.timestamp ++ " - " ++ e.level ++ caller_part ++ " - "
      ++ step_info ++ e.message ++ "\n"]
    ++ (if e.extra_data.isEmpty then []
        else ["    Extra Data: " ++ pyDictRepr e.extra_data ++ "\n"])
    ++ ["\n"]

/-- All `f.write(...)` payloads of the `txt` branch, in order: report
header, a 50-character `=` rule, then each entry's writes. -/
def txtWrites (s : LoggerController) : List String :=
  ["Test Log Report: " ++ s.test_name ++ "\n",
    String.mk (List.replicate 50 '=') ++ "\n\n"]
    ++ s.log_entries.flatMap txtEntryWrites

/-- The CSV header row. -/
def csvHeader : List String :=
  ["Timestamp", "Level", "Test Name", "Caller Info", "Step Name", "Message",
    "Extra Data"]

/-- One CSV data row per entry (`extra_data` cell: compact JSON, or empty
when the dict is falsy). -/
def csvRow (e : LogEntry) : List String :=
  [toString e.timestamp, e.level, e.test_name, e.caller_info,
    e.step_name.getD "", e.message,
    if e.extra_data.isEmpty then "" else jsonOfDict e.extra_data]

/-- The content `export_logs_to_file` writes, per format branch. -/
inductive ExportResult where
  | json (data : JsonExport)
  | txt (content : String)
  | csv (rows : List (List String))
deriving DecidableEq, Repr

/-- Embedding of `export_logs_to_file(file_path, format_type)`: dispatches on the
lowercased format.  The written content is returned alongside the
function's return value (the path); an unrecognized format falls through
every branch, writes nothing, and still returns the path.  No execution
path of the dispatch raises, so every case is `.ok`. -/
def export_logs_to_file (s : LoggerController) (file_path : String)
    (format_type : String) (now : Nat) :
    Except String (Option ExportResult × String) :=
  if pyLower format_type = "json" then
    .ok (some (.json
      { test_summary := s.get_test_summary now
        log_entries := s.log_entries.map LogEntry.to_dict }), file_path)
  else if pyLower format_type = "txt" then
    .ok (some (.txt (String.join (txtWrites s))), file_path)
  else if pyLower format_type = "csv" then
    .ok (some (.csv (csvHeader :: s.log_entries.map csvRow)), file_path)
  else
    .ok (none, file_path)

/-- Embedding of `clear_logs()`: empties the entries, clears the step, resets the start
time to `now`. -/
def clear_logs (s : LoggerController) (now : Nat) : LoggerController :=
  { s with log_entries := [], current_step := none, test_start_time := now }

/-- Embedding of `__exit__(exc_type, exc_val, exc_tb)`: a fault is `(type name, value)`.
Appends a CRITICAL entry when a fault is active, then always appends the
INFO completion entry built from the summary at that point. -/
def exitScope (s : LoggerController) (exc : Option (String × String))
    (now : Nat) (caller : String) : LoggerController :=
  let s :=
    match exc with
    | some et =>
        (s.critical ("Test failed with exception: " ++ et.1 ++ ": " ++ et.2)
          none now caller).1
    | none => s
  let summary := s.get_test_summary now
  (s.info
    ("Test completed. Duration: " ++ toString summary.duration_seconds
      ++ "s, Total logs: " ++ toString summary.total_log_entries
      ++ ", Errors: " ++ toString summary.error_count)
    none now caller).1

end LoggerController

/-- One public mutating call on a recorder. -/
inductive Op where
  | info (message : String) (extra : Option Dict)
  | debug (message : String) (extra : Option Dict)
  | warning (message : String) (extra : Option Dict)
  | error (message : String) (extra : Option Dict)
  | critical (message : String) (extra : Option Dict)
  | log_assertion (message : String) (passed : Bool) (extra : Option Dict)
  | log_action (action : String) (extra : Option Dict)
  | log_screenshot (path desc : String)
  | log_performance (action : String) (dur : ℚ) (extra : Option Dict)
  | step_passed (step msg : String)
  | step_failed (step msg : String)
  | step_skipped (step msg : String)
  | set_current_step (name : String)
  | clear_current_step
  | clear_logs
  | exitScope (exc : Option (String × String))
deriving DecidableEq, Repr

/-- Execute one operation at clock value `now` with resolved caller
provenance `caller`. -/
def stepOp (op : Op) (now : Nat) (caller : String) (s : LoggerController) :
    LoggerController :=
  match op with
  | .info m e => (s.info m e now caller).1
  | .debug m e => (s.debug m e now caller).1
  | .warning m e => (s.warning m e now caller).1
  | .error m e => (s.error m e now caller).1
  | .critical m e => (s.critical m e now caller).1
  | .log_assertion m p e => (s.log_assertion m p e now caller).1
  | .log_action a e => (s.log_action a e now caller).1
  | .log_screenshot p d => (s.log_screenshot p d now caller).1
  | .log_performance a q e => (s.log_performance a q e now caller).1
  | .step_passed st m => (s.step_passed st m now caller).1
  | .step_failed st m => (s.step_failed st m now caller).1
  | .step_skipped st m => (s.step_skipped st m now caller).1
  | .set_current_step n => s.set_current_step n now caller
  | .clear_current_step => s.clear_current_step now caller
  | .clear_logs => s.clear_logs now
  | .exitScope exc => s.exitScope exc now caller

/-- Run a trace: each element is an operation with its clock value and its
resolved caller provenance. -/
def run : List (Op × Nat × String) → LoggerController → LoggerController
  | [], s => s
  | (op, t, c) :: rest, s => run rest (stepOp op t c s)

/-! ## Concrete scenario states used by the claims -/

/-- Scenario of claim C3, after `info("a")` at tick 1. -/
def c3s1 : LoggerController :=
  ((LoggerController.init "t1" 0).info "a" none 1 "c").1

/-- Scenario of claim C3, after `set_current_step("S")` at tick 2. -/
def c3s2 : LoggerController := c3s1.set_current_step "S" 2 "c"

/-- Scenario of claim C3, after `warning("b")` at tick 3. -/
def c3s3 : LoggerController := (c3s2.warning "b" none 3 "c").1

/-- Scenario of claim C3, after `clear_current_step()` at tick 4. -/
def c3s4 : LoggerController := c3s3.clear_current_step 4 "c"

/-- Entry produced by `log_performance("load", 1, {"action": "override"})` on
a fresh recorder (claim C1). -/
def c1entry : LogEntry :=
  ((LoggerController.init "t" 0).log_performance "load" 1
    (some [("action", .str "override")]) 1 "c").2

/-! ## Dictionary lemmas (Python `dict.update` semantics) -/

theorem find?_map_replace (d : Dict) (k : String) (v : Value) :
    (d.map (fun p => if p.1 = k then (k, v) else p)).find? (fun p => decide (p.1 = k))
      = if d.any (fun p => decide (p.1 = k)) then some (k, v) else none := by
  induction d with
  | nil => simp
  | cons p t ih =>
    by_cases hp : p.1 = k
    · simp [hp, List.find?_cons_of_pos]
    · simp only [List.map_cons, List.any_cons]
      rw [if_neg hp, List.find?_cons_of_neg _ (by simpa using hp), ih]
      simp only [decide_eq_false hp, Bool.false_or]

theorem find?_map_replace_ne (d : Dict) (k : String) (v : Value) (q : String)
    (h : q ≠ k) :
    (d.map (fun p => if p.1 = k then (k, v) else p)).find? (fun p => decide (p.1 = q))
      = d.find? (fun p => decide (p.1 = q)) := by
  induction d with
  | nil => simp
  | cons p t ih =>
    by_cases hp : p.1 = k
    · rw [List.map_cons, if_pos hp,
        List.find?_cons_of_neg _ (by simpa using Ne.symm h),
        List.find?_cons_of_neg _ (by simpa using fun hq => h (hq.symm.trans hp)), ih]
    · by_cases hq : p.1 = q
      · rw [List.map_cons, if_neg hp, List.find?_cons_of_pos _ (by simpa using hq),
          List.find?_cons_of_pos _ (by simpa using hq)]
      · rw [List.map_cons, if_neg hp, List.find?_cons_of_neg _ (by simpa using hq),
          List.find?_cons_of_neg _ (by simpa using hq), ih]

theorem dictGet_dictSet_self (d : Dict) (k : String) (v : Value) :
    dictGet (dictSet d k v) k = some v := by
  unfold dictGet dictSet
  by_cases h : d.any (fun p => decide (p.1 = k)) = true
  · rw [if_pos h, find?_map_replace, if_pos h]; rfl
  · rw [if_neg h, List.find?_append]
    have hn : d.find? (fun p => decide (p.1 = k)) = none := by
      rw [List.find?_eq_none]
      intro x hx hc
      exact h (List.any_eq_true.mpr ⟨x, hx, hc⟩)
    rw [hn, Option.none_or, List.find?_cons_of_pos _ (by simp)]
    rfl

theorem dictGet_dictSet_ne (d : Dict) (k : String) (v : Value) (q : String)
    (h : q ≠ k) :
    dictGet (dictSet d k v) q = dictGet d q := by
  unfold dictGet dictSet
  by_cases hh : d.any (fun p => decide (p.1 = k)) = true
  · rw [if_pos hh, find?_map_replace_ne d k v q h]
  · rw [if_neg hh, List.find?_append,
      List.find?_cons_of_neg _ (by simpa using Ne.symm h)]
    cases d.find? (fun p => decide (p.1 = q)) <;> rfl

theorem dictGet_dictUpdate (d e : Dict) (k : String)
    (he : (dictKeys e).Nodup) :
    dictGet (dictUpdate d e) k = (dictGet e k).or (dictGet d k) := by
  induction e generalizing d with
  | nil => simp [dictUpdate, dictGet]
  | cons p t ih =>
    simp only [dictKeys, List.map_cons, List.nodup_cons, List.mem_map] at he
    have hstep : dictUpdate d (p :: t) = dictUpdate (dictSet d p.1 p.2) t := rfl
    rw [hstep, ih _ (by simpa [dictKeys] using he.2)]
    by_cases hk : k = p.1
    · have hf : t.find? (fun p => decide (p.1 = k)) = none := by
        rw [List.find?_eq_none]
        intro x hx hc
        exact absurd ⟨x, hx, (of_decide_eq_true hc).trans hk⟩ he.1
      have hnone : dictGet t k = none := by
        unfold dictGet
        rw [hf]
        rfl
      have hhd : dictGet (p :: t) k = some p.2 := by
        unfold dictGet
        rw [List.find?_cons_of_pos _ (by simp [hk])]
        rfl
      rw [hnone, Option.none_or, hhd, Option.or_some, hk, dictGet_dictSet_self]
    · have hhd : dictGet (p :: t) k = dictGet t k := by
        unfold dictGet
        rw [List.find?_cons_of_neg _ (by simpa using fun hc => hk hc.symm)]
      rw [hhd, dictGet_dictSet_ne d p.1 p.2 k hk]


/-! ## Claim theorems -/

/-- Claim C3, counterexample: in the scenario
`info("a"); set_current_step("S"); warning("b"); clear_current_step()`, the
fourth entry (the "Completed Step" marker) carries `step_name == "S"` — it is
logged before the step is reset — so the claim's "entries 1 and 4 have
step_name absent" is false for entry 4. -/
theorem c3_entry4_has_step :
    c3s4.log_entries.map (fun e => e.step_name)
        = [none, some "S", some "S", some "S"]
      ∧ (c3s4.log_entries[3]?).map (fun e => e.step_name) ≠ some none := by
  constructor
  · decide
  · decide

/-- Claim C3 (amended): same scenario; 4 entries total; entry 3 (`"b"`) has
`step_name == "S"`; entry 1 has `step_name` absent but entry 4 (the
completion marker) has `step_name == "S"`; `get_logs_by_step("S")` returns
exactly entries 2–4: the starting marker, `"b"`, and the completion
marker, in order. -/
theorem c3_scenario_amended :
    c3s4.log_entries.length = 4
      ∧ c3s4.log_entries.map (fun e => e.message)
          = ["a", "=== Starting Step: S ===", "b", "=== Completed Step: S ==="]
      ∧ c3s4.log_entries.map (fun e => e.step_name)
          = [none, some "S", some "S", some "S"]
      ∧ c3s4.get_logs_by_step "S" = c3s4.log_entries.drop 1
      ∧ (c3s4.get_logs_by_step "S").map (fun e => e.message)
          = ["=== Starting Step: S ===", "b", "=== Completed Step: S ==="] := by
  refine ⟨rfl, by decide, by decide, by decide, by decide⟩

/-- Claim C10: the empty string as a step name is treated as "no active
step" by the clearing path — `set_current_step("")` does append a starting
marker and sets the step to `""`, but the following `clear_current_step()`
appends no completion marker (the empty string is falsy) and only resets
the step to none. -/
theorem empty_step_name_not_paired :
    ((LoggerController.init "t" 0).set_current_step "" 1 "c").current_step
        = some ""
      ∧ ((LoggerController.init "t" 0).set_current_step "" 1 "c").log_entries.map
          (fun e => e.message) = ["=== Starting Step:  ==="]
      ∧ (((LoggerController.init "t" 0).set_current_step "" 1 "c").clear_current_step
          2 "c").log_entries
          = ((LoggerController.init "t" 0).set_current_step "" 1 "c").log_entries
      ∧ (((LoggerController.init "t" 0).set_current_step "" 1 "c").clear_current_step
          2 "c").current_step = none := by
  refine ⟨rfl, by decide, by decide, rfl⟩

/-- Claim C1, counterexample: `log_performance("load", 1, {"action": "override"})`
stores `"override"` — the caller-supplied value — under `"action"`, because
the code runs `perf_data.update(extra_data)`, so the claim's "caller-supplied
values under those two keys are overwritten" is false. -/
theorem log_performance_caller_key_wins :
    dictGet c1entry.extra_data "action" = some (.str "override")
      ∧ dictGet c1entry.extra_data "action" ≠ some (.str "load") := by
  constructor
  · decide
  · decide

/-- Claim C2, counterexample: exporting with the unrecognized format `"xml"`
does not fail with a usage error — the call completes normally (`.ok`),
writes nothing (`none`), and returns the given path. -/
theorem export_unknown_format_silent :
    (LoggerController.init "t" 0).export_logs_to_file "out.log" "xml" 0
        = .ok (none, "out.log")
      ∧ ((LoggerController.init "t" 0).export_logs_to_file "out.log" "xml" 0).isOk
        = true := by
  constructor
  · rfl
  · rfl

/-- Claim C4, counterexample: the format string `"text"` is not recognized —
on a recorder holding one entry, exporting with `"text"` writes nothing and
silently returns the path (the recognized token is `"txt"`). -/
theorem export_text_format_unrecognized :
    (((LoggerController.init "t4" 0).info "hello" none 1 "f.py:1").1).export_logs_to_file
        "r.txt" "text" 0 = .ok (none, "r.txt") := by
  rfl

/-- Claim C1 (amended): `log_performance` appends one INFO entry whose
`extra_data` is `{duration_seconds, action}` updated with the caller's
dict — so every caller-supplied key keeps its caller-supplied value (the
caller overwrites the two injected keys, not the other way around), and the
two keys fall back to the arguments only when the caller did not supply
them. -/
theorem log_performance_merge (s : LoggerController) (action : String)
    (dur : ℚ) (extra : Dict) (t : Nat) (c : String)
    (hkeys : (dictKeys extra).Nodup) :
    (s.log_performance action dur (some extra) t c).2.level = "INFO"
      ∧ (s.log_performance action dur (some extra) t c).1.log_entries
          = s.log_entries ++ [(s.log_performance action dur (some extra) t c).2]
      ∧ (∀ k v, dictGet extra k = some v →
          dictGet (s.log_performance action dur (some extra) t c).2.extra_data k
            = some v)
      ∧ (dictGet extra "action" = none →
          dictGet (s.log_performance action dur (some extra) t c).2.extra_data
            "action" = some (.str action))
      ∧ (dictGet extra "duration_seconds" = none →
          dictGet (s.log_performance action dur (some extra) t c).2.extra_data
            "duration_seconds" = some (.num dur)) := by
  have hx : (s.log_performance action dur (some extra) t c).2.extra_data
      = if extra.isEmpty then
          [("duration_seconds", Value.num dur), ("action", Value.str action)]
        else
          dictUpdate
            [("duration_seconds", Value.num dur), ("action", Value.str action)]
            extra := rfl
  refine ⟨rfl, rfl, ?_, ?_, ?_⟩
  · intro k v hkv
    rw [hx]
    have hne : ¬ extra.isEmpty = true := by
      intro hemp
      rw [List.isEmpty_iff] at hemp
      subst hemp
      simp [dictGet] at hkv
    rw [if_neg hne, dictGet_dictUpdate _ _ _ hkeys, hkv, Option.or_some]
  · intro hnone
    rw [hx]
    by_cases hemp : extra.isEmpty
    · rw [if_pos hemp]
      rfl
    · rw [if_neg hemp, dictGet_dictUpdate _ _ _ hkeys, hnone, Option.none_or]
      rfl
  · intro hnone
    rw [hx]
    by_cases hemp : extra.isEmpty
    · rw [if_pos hemp]
      rfl
    · rw [if_neg hemp, dictGet_dictUpdate _ _ _ hkeys, hnone, Option.none_or]
      rfl

/-- Witness for `log_performance_merge` at a concrete input. -/
theorem log_performance_merge_witness :
    (dictKeys [("posts_count", Value.num 3)]).Nodup
      ∧ dictGet (((LoggerController.init "w" 0).log_performance "load" 1
          (some [("posts_count", Value.num 3)]) 1 "c").2).extra_data "posts_count"
          = some (Value.num 3) :=
  ⟨by decide,
    (log_performance_merge (LoggerController.init "w" 0) "load" 1
        [("posts_count", Value.num 3)] 1 "c" (by decide)).2.2.1
      "posts_count" (Value.num 3) (by decide)⟩

/-- Claim C2 (amended): an unrecognized export format is silently ignored —
the call does not raise a usage error; it writes no file at all and returns
the given path unchanged (so no partial file is ever left, vacuously). -/
theorem export_unrecognized_silent (s : LoggerController) (path fmt : String)
    (now : Nat) (h : LoggerController.pyLower fmt ∉ (["json", "txt", "csv"] : List String)) :
    s.export_logs_to_file path fmt now = .ok (none, path) := by
  have h1 : ¬ LoggerController.pyLower fmt = "json" := fun hc => h (by simp [hc])
  have h2 : ¬ LoggerController.pyLower fmt = "txt" := fun hc => h (by simp [hc])
  have h3 : ¬ LoggerController.pyLower fmt = "csv" := fun hc => h (by simp [hc])
  unfold LoggerController.export_logs_to_file
  rw [if_neg h1, if_neg h2, if_neg h3]

/-- Witness for `export_unrecognized_silent` at a concrete input. -/
theorem export_unrecognized_silent_witness :
    LoggerController.pyLower "XML" ∉ (["json", "txt", "csv"] : List String)
      ∧ (LoggerController.init "w" 0).export_logs_to_file "p" "XML" 0
          = .ok (none, "p") :=
  ⟨by decide,
    export_unrecognized_silent (LoggerController.init "w" 0) "p" "XML" 0
      (by decide)⟩


/-- Scenario state for the `get_logs_by_step` witness: one entry recorded
with no active step. -/
def c5state : LoggerController :=
  ((LoggerController.init "t5" 0).info "x" none 1 "c").1

/-- The entry recorded by `c5state`. -/
def c5entry : LogEntry :=
  ((LoggerController.init "t5" 0).info "x" none 1 "c").2

/-- Claim C5: `get_logs_by_step` returns the stable-order subsequence of
entries whose step label equals the argument exactly, and an entry recorded
with no active step is never returned by any query. -/
theorem get_logs_by_step_spec (s : LoggerController) (q : String) :
    List.Sublist (s.get_logs_by_step q) s.log_entries
      ∧ (∀ e, e ∈ s.get_logs_by_step q ↔ e ∈ s.log_entries ∧ e.step_name = some q)
      ∧ (∀ e, e ∈ s.log_entries → e.step_name = none →
          ∀ q2, e ∉ s.get_logs_by_step q2) := by
  refine ⟨List.filter_sublist _, ?_, ?_⟩
  · intro e
    simp [LoggerController.get_logs_by_step, List.mem_filter]
  · intro e _ hn q2 hmem
    simp [LoggerController.get_logs_by_step, List.mem_filter, hn] at hmem

/-- Witness for `get_logs_by_step_spec` at a concrete input. -/
theorem get_logs_by_step_spec_witness :
    c5entry ∉ c5state.get_logs_by_step "S" :=
  (get_logs_by_step_spec c5state "S").2.2 c5entry (by decide) (by decide) "S"

/-- Claim C6: exporting with format `"json"` yields a document whose
summary's `total_log_entries` equals the recorder's entry count at export
time and whose entry list matches the recorder's entries field-for-field,
in order. -/
theorem json_export_round_trip (s : LoggerController) (path : String)
    (now : Nat) :
    ∃ d : LoggerController.JsonExport,
      s.export_logs_to_file path "json" now = .ok (some (.json d), path)
        ∧ d.test_summary.total_log_entries = s.log_entries.length
        ∧ d.log_entries = s.log_entries.map LogEntry.to_dict
        ∧ d.log_entries.length = s.log_entries.length
        ∧ (∀ e : LogEntry,
            e.to_dict.timestamp = e.timestamp ∧ e.to_dict.level = e.level
              ∧ e.to_dict.message = e.message
              ∧ e.to_dict.test_name = e.test_name
              ∧ e.to_dict.caller_info = e.caller_info
              ∧ e.to_dict.step_name = e.step_name
              ∧ e.to_dict.extra_data = e.extra_data) := by
  refine ⟨_, rfl, rfl, rfl, by simp, fun e => ⟨rfl, rfl, rfl, rfl, rfl, rfl, rfl⟩⟩

theorem filter_err_crit_split (l : List LogEntry) :
    (l.filter (fun e => e.level = LogLevel.ERROR.value)).length
      + (l.filter (fun e => e.level = LogLevel.CRITICAL.value)).length
    = (l.filter (fun e =>
        e.level = LogLevel.ERROR.value
          ∨ e.level = LogLevel.CRITICAL.value)).length := by
  simp only [LogLevel.value]
  induction l with
  | nil => rfl
  | cons e tl ih =>
    rw [List.filter_cons, List.filter_cons, List.filter_cons]
    by_cases hE : e.level = "ERROR"
    · have hC : ¬ e.level = "CRITICAL" := by
        rw [hE]
        decide
      rw [if_pos (by simpa using hE), if_neg (by simpa using hC),
        if_pos (by simp [hE])]
      simp only [List.length_cons]
      omega
    · by_cases hC : e.level = "CRITICAL"
      · rw [if_neg (by simpa using hE), if_pos (by simpa using hC),
          if_pos (by simp [hC])]
        simp only [List.length_cons]
        omega
      · rw [if_neg (by simpa using hE), if_neg (by simpa using hC),
          if_neg (by simp [hE, hC])]
        omega

theorem error_count_eq (s2 : LoggerController) (tt : Nat) :
    (s2.get_test_summary tt).error_count = s2.get_error_logs.length := by
  have h1 : (s2.get_test_summary tt).error_count
      = (s2.get_logs_by_level .ERROR).length
        + (s2.get_logs_by_level .CRITICAL).length := rfl
  rw [h1]
  exact filter_err_crit_split s2.log_entries

/-- Claim C9: on scope exit, a fault appends a CRITICAL entry describing it,
and in every case exactly one INFO completion entry is appended last, whose
message is the completion summary reporting the elapsed duration since
construction, the total entry count, and the error (ERROR plus CRITICAL)
count as computed at that moment — after the fault entry, when there was
one. -/
theorem exit_scope_appends (s : LoggerController)
    (exc : Option (String × String)) (t : Nat) (c : String) :
    (∀ a b, exc = some (a, b) → ∃ eC eI,
        (s.exitScope exc t c).log_entries = s.log_entries ++ [eC, eI]
          ∧ eC.level = "CRITICAL"
          ∧ eC.message = "Test failed with exception: " ++ a ++ ": " ++ b
          ∧ eI.level = "INFO"
          ∧ eI.message
              = "Test completed. Duration: "
                  ++ toString ((t : Int) - (s.test_start_time : Int))
                  ++ "s, Total logs: " ++ toString (s.log_entries.length + 1)
                  ++ ", Errors: " ++ toString (s.get_error_logs.length + 1))
      ∧ (exc = none → ∃ eI,
          (s.exitScope exc t c).log_entries = s.log_entries ++ [eI]
            ∧ eI.level = "INFO"
            ∧ eI.message
                = "Test completed. Duration: "
                    ++ toString ((t : Int) - (s.test_start_time : Int))
                    ++ "s, Total logs: " ++ toString s.log_entries.length
                    ++ ", Errors: " ++ toString s.get_error_logs.length) := by
  constructor
  · rintro a b rfl
    refine
      ⟨(s.critical ("Test failed with exception: " ++ a ++ ": " ++ b) none t
          c).2,
        ((s.critical ("Test failed with exception: " ++ a ++ ": " ++ b) none t
              c).1.info
          ("Test completed. Duration: "
              ++ toString
                (((s.critical ("Test failed with exception: " ++ a ++ ": " ++ b)
                      none t c).1.get_test_summary t).duration_seconds)
              ++ "s, Total logs: "
              ++ toString
                (((s.critical ("Test failed with exception: " ++ a ++ ": " ++ b)
                      none t c).1.get_test_summary t).total_log_entries)
              ++ ", Errors: "
              ++ toString
                (((s.critical ("Test failed with exception: " ++ a ++ ": " ++ b)
                      none t c).1.get_test_summary t).error_count))
          none t c).2, ?_, rfl, rfl, rfl, ?_⟩
    · rw [show (s.exitScope (some (a, b)) t c).log_entries
          = (s.log_entries
              ++ [(s.critical ("Test failed with exception: " ++ a ++ ": " ++ b)
                  none t c).2])
            ++ [((s.critical ("Test failed with exception: " ++ a ++ ": " ++ b)
                    none t c).1.info
                ("Test completed. Duration: "
                    ++ toString
                      (((s.critical
                            ("Test failed with exception: " ++ a ++ ": " ++ b)
                            none t c).1.get_test_summary t).duration_seconds)
                    ++ "s, Total logs: "
                    ++ toString
                      (((s.critical
                            ("Test failed with exception: " ++ a ++ ": " ++ b)
                            none t c).1.get_test_summary t).total_log_entries)
                    ++ ", Errors: "
                    ++ toString
                      (((s.critical
                            ("Test failed with exception: " ++ a ++ ": " ++ b)
                            none t c).1.get_test_summary t).error_count))
                none t c).2] from rfl,
        List.append_assoc]
      rfl
    · show "Test completed. Duration: "
            ++ toString
              (((s.critical ("Test failed with exception: " ++ a ++ ": " ++ b)
                    none t c).1.get_test_summary t).duration_seconds)
            ++ "s, Total logs: "
            ++ toString
              (((s.critical ("Test failed with exception: " ++ a ++ ": " ++ b)
                    none t c).1.get_test_summary t).total_log_entries)
            ++ ", Errors: "
            ++ toString
              (((s.critical ("Test failed with exception: " ++ a ++ ": " ++ b)
                    none t c).1.get_test_summary t).error_count)
          = _
      have ht2 : (((s.critical
              ("Test failed with exception: " ++ a ++ ": " ++ b) none t
              c).1.get_test_summary t).total_log_entries)
          = s.log_entries.length + 1 := by
        show (s.log_entries ++ [_]).length = _
        rw [List.length_append]
        rfl
      have he2 : ((s.critical ("Test failed with exception: " ++ a ++ ": " ++ b)
              none t c).1.get_error_logs).length
          = s.get_error_logs.length + 1 := by
        show (List.filter _ (s.log_entries ++ [_])).length = _
        rw [List.filter_append, List.length_append]
        rfl
      rw [ht2, error_count_eq, he2]
      rfl
  · rintro rfl
    refine
      ⟨((s.info
          ("Test completed. Duration: "
              ++ toString ((s.get_test_summary t).duration_seconds)
              ++ "s, Total logs: "
              ++ toString ((s.get_test_summary t).total_log_entries)
              ++ ", Errors: " ++ toString ((s.get_test_summary t).error_count))
          none t c).2), rfl, rfl, ?_⟩
    show "Test completed. Duration: "
        ++ toString ((s.get_test_summary t).duration_seconds)
        ++ "s, Total logs: "
        ++ toString ((s.get_test_summary t).total_log_entries)
        ++ ", Errors: " ++ toString ((s.get_test_summary t).error_count) = _
    rw [error_count_eq]
    rfl

/-- Witness for `exit_scope_appends` at a concrete input. -/
theorem exit_scope_appends_witness :
    ∃ eC eI,
      ((LoggerController.init "w9" 0).exitScope (some ("ValueError", "boom")) 5
          "c").log_entries
        = (LoggerController.init "w9" 0).log_entries ++ [eC, eI]
          ∧ eC.level = "CRITICAL"
          ∧ eC.message
            = "Test failed with exception: " ++ "ValueError" ++ ": " ++ "boom"
          ∧ eI.level = "INFO"
          ∧ eI.message
              = "Test completed. Duration: "
                  ++ toString (((5 : Nat) : Int)
                    - ((LoggerController.init "w9" 0).test_start_time : Int))
                  ++ "s, Total logs: "
                  ++ toString
                    ((LoggerController.init "w9" 0).log_entries.length + 1)
                  ++ ", Errors: "
                  ++ toString
                    ((LoggerController.init "w9" 0).get_error_logs.length + 1) :=
  (exit_scope_appends (LoggerController.init "w9" 0)
      (some ("ValueError", "boom")) 5 "c").1 "ValueError" "boom" rfl



theorem strFoldlAcc (l : List String) (acc : String) :
    l.foldl (· ++ ·) acc = acc ++ l.foldl (· ++ ·) "" := by
  induction l generalizing acc with
  | nil => simp
  | cons a l ih =>
    simp only [List.foldl_cons]
    rw [ih (acc ++ a), ih ("" ++ a)]
    simp [String.append_assoc]

theorem joinCons (a : String) (l : List String) :
    String.join (a :: l) = a ++ String.join l := by
  simp only [String.join, List.foldl_cons]
  rw [strFoldlAcc l ("" ++ a)]
  simp

theorem joinAppend (l1 l2 : List String) :
    String.join (l1 ++ l2) = String.join l1 ++ String.join l2 := by
  induction l1 with
  | nil => simp [String.join]
  | cons a t ih => simp only [List.cons_append, joinCons, ih, String.append_assoc]

theorem joinFlatMap (f : LogEntry → List String) (l : List LogEntry) :
    String.join (l.flatMap f)
      = String.join (l.map (fun e => String.join (f e))) := by
  induction l with
  | nil => rfl
  | cons a t ih =>
    rw [List.flatMap_cons, joinAppend, List.map_cons, joinCons, ih]

def txtReportSpec (s : LoggerController) : String :=
  "Test Log Report: " ++ s.test_name ++ "\n"
    ++ String.mk (List.replicate 50 '=') ++ "\n\n"
    ++ String.join (s.log_entries.map (fun e =>
        toString e.timestamp ++ " - " ++ e.level
          ++ (if e.caller_info.isEmpty then ""
              else " (" ++ e.caller_info ++ ")")
          ++ " - "
          ++ (if LoggerController.optStrTruthy e.step_name then
                "[" ++ e.step_name.getD "" ++ "] "
              else "")
          ++ e.message ++ "\n"
          ++ (if e.extra_data.isEmpty then ""
              else "    Extra Data: "
                ++ LoggerController.pyDictRepr e.extra_data ++ "\n")
          ++ "\n"))

theorem join_txtEntryWrites (e : LogEntry) :
    String.join (LoggerController.txtEntryWrites e)
      = toString e.timestamp ++ " - " ++ e.level
          ++ (if e.caller_info.isEmpty then ""
              else " (" ++ e.caller_info ++ ")")
          ++ " - "
          ++ (if LoggerController.optStrTruthy e.step_name then
                "[" ++ e.step_name.getD "" ++ "] "
              else "")
          ++ e.message ++ "\n"
          ++ (if e.extra_data.isEmpty then ""
              else "    Extra Data: "
                ++ LoggerController.pyDictRepr e.extra_data ++ "\n")
          ++ "\n" := by
  unfold LoggerController.txtEntryWrites
  by_cases hx : e.extra_data.isEmpty
  · simp [hx, joinCons, String.join, String.append_assoc]
  · simp [hx, joinCons, String.join, String.append_assoc]

theorem txt_export_layout (s : LoggerController) (path : String) (now : Nat) :
    s.export_logs_to_file path "txt" now
        = .ok (some (.txt (txtReportSpec s)), path)
      ∧ s.export_logs_to_file path "TXT" now
        = .ok (some (.txt (txtReportSpec s)), path) := by
  have key : String.join (LoggerController.txtWrites s) = txtReportSpec s := by
    unfold LoggerController.txtWrites txtReportSpec
    rw [joinAppend, joinFlatMap]
    simp only [join_txtEntryWrites]
    simp [joinCons, String.join, String.append_assoc]
  constructor
  · rw [show s.export_logs_to_file path "txt" now
        = .ok (some (.txt (String.join (LoggerController.txtWrites s))), path)
        from rfl, key]
  · rw [show s.export_logs_to_file path "TXT" now
        = .ok (some (.txt (String.join (LoggerController.txtWrites s))), path)
        from rfl, key]




/-- Structural effect of one operation on the entry sequence: every
operation except `clear_logs` only appends, and every appended entry is
stamped with the operation's clock value and carries one of the five enum
level strings. -/
theorem stepOp_entries (op : Op) (t : Nat) (c : String) (s : LoggerController)
    (hop : op ≠ Op.clear_logs) :
    ∃ tail, (stepOp op t c s).log_entries = s.log_entries ++ tail
      ∧ ∀ e ∈ tail, e.timestamp = t ∧ ∃ l : LogLevel, e.level = l.value := by
  cases op with
  | info m ex =>
    refine ⟨[(s.info m ex t c).2], rfl, ?_⟩
    intro e he
    rw [List.mem_singleton] at he
    subst he
    exact ⟨rfl, ⟨.INFO, rfl⟩⟩
  | debug m ex =>
    refine ⟨[(s.debug m ex t c).2], rfl, ?_⟩
    intro e he
    rw [List.mem_singleton] at he
    subst he
    exact ⟨rfl, ⟨.DEBUG, rfl⟩⟩
  | warning m ex =>
    refine ⟨[(s.warning m ex t c).2], rfl, ?_⟩
    intro e he
    rw [List.mem_singleton] at he
    subst he
    exact ⟨rfl, ⟨.WARNING, rfl⟩⟩
  | error m ex =>
    refine ⟨[(s.error m ex t c).2], rfl, ?_⟩
    intro e he
    rw [List.mem_singleton] at he
    subst he
    exact ⟨rfl, ⟨.ERROR, rfl⟩⟩
  | critical m ex =>
    refine ⟨[(s.critical m ex t c).2], rfl, ?_⟩
    intro e he
    rw [List.mem_singleton] at he
    subst he
    exact ⟨rfl, ⟨.CRITICAL, rfl⟩⟩
  | log_assertion m p ex =>
    refine ⟨[(s.log_assertion m p ex t c).2], rfl, ?_⟩
    intro e he
    rw [List.mem_singleton] at he
    subst he
    exact ⟨rfl, ⟨if p then .INFO else .ERROR, by cases p <;> rfl⟩⟩
  | log_action a ex =>
    refine ⟨[(s.log_action a ex t c).2], rfl, ?_⟩
    intro e he
    rw [List.mem_singleton] at he
    subst he
    exact ⟨rfl, ⟨.INFO, rfl⟩⟩
  | log_screenshot p d =>
    refine ⟨[(s.log_screenshot p d t c).2], rfl, ?_⟩
    intro e he
    rw [List.mem_singleton] at he
    subst he
    exact ⟨rfl, ⟨.INFO, rfl⟩⟩
  | log_performance a q ex =>
    refine ⟨[(s.log_performance a q ex t c).2], rfl, ?_⟩
    intro e he
    rw [List.mem_singleton] at he
    subst he
    exact ⟨rfl, ⟨.INFO, rfl⟩⟩
  | step_passed st m =>
    refine ⟨[(s.step_passed st m t c).2], rfl, ?_⟩
    intro e he
    rw [List.mem_singleton] at he
    subst he
    exact ⟨rfl, ⟨.INFO, rfl⟩⟩
  | step_failed st m =>
    refine ⟨[(s.step_failed st m t c).2], rfl, ?_⟩
    intro e he
    rw [List.mem_singleton] at he
    subst he
    exact ⟨rfl, ⟨.ERROR, rfl⟩⟩
  | step_skipped st m =>
    refine ⟨[(s.step_skipped st m t c).2], rfl, ?_⟩
    intro e he
    rw [List.mem_singleton] at he
    subst he
    exact ⟨rfl, ⟨.WARNING, rfl⟩⟩
  | set_current_step n =>
    refine ⟨[({ s with current_step := some n }.log0 .INFO
        ("=== Starting Step: " ++ n ++ " ===") none t c).2], ?_, ?_⟩
    · rfl
    intro e he
    rw [List.mem_singleton] at he
    subst he
    exact ⟨rfl, ⟨.INFO, rfl⟩⟩
  | clear_current_step =>
    by_cases h : LoggerController.optStrTruthy s.current_step
    · refine ⟨[(s.log0 .INFO
          ("=== Completed Step: " ++ s.current_step.getD "" ++ " ===") none t
          c).2], ?_, ?_⟩
      · show (LoggerController.clear_current_step s t c).log_entries = _
        unfold LoggerController.clear_current_step
        rw [if_pos h]
        rfl
      · intro e he
        rw [List.mem_singleton] at he
        subst he
        exact ⟨rfl, ⟨.INFO, rfl⟩⟩
    · refine ⟨[], ?_, by simp⟩
      show (LoggerController.clear_current_step s t c).log_entries = _
      unfold LoggerController.clear_current_step
      rw [if_neg h, List.append_nil]
  | clear_logs => exact absurd rfl hop
  | exitScope exc =>
    cases exc with
    | none =>
      obtain ⟨x, hx, hxt, hxl⟩ :
          ∃ x, (s.exitScope none t c).log_entries = s.log_entries ++ [x]
            ∧ x.timestamp = t ∧ x.level = LogLevel.INFO.value :=
        ⟨_, rfl, rfl, rfl⟩
      refine ⟨[x], hx, ?_⟩
      intro e he
      rw [List.mem_singleton] at he
      subst he
      exact ⟨hxt, ⟨.INFO, hxl⟩⟩
    | some f =>
      obtain ⟨a, b⟩ := f
      obtain ⟨x, hx, hxt, hxl⟩ :
          ∃ x, (s.exitScope (some (a, b)) t c).log_entries
              = (s.critical ("Test failed with exception: " ++ a ++ ": " ++ b)
                  none t c).1.log_entries ++ [x]
            ∧ x.timestamp = t ∧ x.level = LogLevel.INFO.value :=
        ⟨_, rfl, rfl, rfl⟩
      refine ⟨[(s.critical ("Test failed with exception: " ++ a ++ ": " ++ b)
          none t c).2, x], ?_, ?_⟩
      · show (s.exitScope (some (a, b)) t c).log_entries = _
        rw [hx,
          show (s.critical ("Test failed with exception: " ++ a ++ ": " ++ b)
              none t c).1.log_entries
            = s.log_entries
              ++ [(s.critical
                  ("Test failed with exception: " ++ a ++ ": " ++ b) none t
                  c).2] from rfl,
          List.append_assoc]
        rfl
      · intro e he
        rcases List.mem_cons.mp he with rfl | he2
        · exact ⟨rfl, ⟨.CRITICAL, rfl⟩⟩
        · rw [List.mem_singleton] at he2
          subst he2
          exact ⟨hxt, ⟨.INFO, hxl⟩⟩



/-- Strict entry-sequence monotonicity predicate: timestamps are
non-decreasing along the list. -/
def entriesMono (l : List LogEntry) : Prop :=
  List.Chain' (fun a b => a.timestamp ≤ b.timestamp) l

/-- All timestamps in the list are at most `t`. -/
def entriesLE (l : List LogEntry) (t : Nat) : Prop :=
  ∀ e ∈ l, e.timestamp ≤ t

/-- The clock values along a trace are non-decreasing, starting from `t0`
(the single-threaded wall-clock premise of the spec). -/
def timesMono : Nat → List (Op × Nat × String) → Prop
  | _, [] => True
  | t0, (_, t, _) :: rest => t0 ≤ t ∧ timesMono t rest

theorem entriesMono_const (tail : List LogEntry) (t : Nat)
    (h : ∀ e ∈ tail, e.timestamp = t) : entriesMono tail := by
  induction tail with
  | nil => exact List.chain'_nil
  | cons a tl ih =>
    cases tl with
    | nil => exact List.chain'_singleton a
    | cons b tl2 =>
      rw [entriesMono, List.chain'_cons]
      refine ⟨?_, ih ?_⟩
      · rw [h a (by simp), h b (by simp)]
      · intro e he
        exact h e (List.mem_cons_of_mem _ he)

theorem entriesMono_append (l tail : List LogEntry) (u t : Nat)
    (hm : entriesMono l) (hle : entriesLE l u) (hut : u ≤ t)
    (htail : ∀ e ∈ tail, e.timestamp = t) : entriesMono (l ++ tail) := by
  rw [entriesMono, List.chain'_append]
  refine ⟨hm, entriesMono_const tail t htail, ?_⟩
  intro x hx y hy
  have hx2 := List.mem_of_mem_getLast? hx
  have hy2 := List.mem_of_mem_head? hy
  calc x.timestamp ≤ u := hle x hx2
    _ ≤ t := hut
    _ = y.timestamp := (htail y hy2).symm

/-- One operation preserves monotonicity and bounds all entries by the
operation's clock value, provided the clock did not go backwards. -/
theorem stepOp_mono (op : Op) (t : Nat) (c : String) (s : LoggerController)
    (u : Nat) (hm : entriesMono s.log_entries) (hle : entriesLE s.log_entries u)
    (hut : u ≤ t) :
    entriesMono (stepOp op t c s).log_entries
      ∧ entriesLE (stepOp op t c s).log_entries t := by
  by_cases hop : op = Op.clear_logs
  · subst hop
    constructor
    · exact List.chain'_nil
    · intro e he
      simp [stepOp, LoggerController.clear_logs] at he
  · obtain ⟨tail, heq, htail⟩ := stepOp_entries op t c s hop
    rw [heq]
    constructor
    · exact entriesMono_append _ _ u t hm hle hut (fun e he => (htail e he).1)
    · intro e he
      rcases List.mem_append.mp he with h1 | h2
      · exact le_trans (hle e h1) hut
      · exact le_of_eq (htail e h2).1

theorem run_mono (tr : List (Op × Nat × String)) (s : LoggerController)
    (t0 : Nat) (hm : entriesMono s.log_entries)
    (hle : entriesLE s.log_entries t0) (htm : timesMono t0 tr) :
    entriesMono (run tr s).log_entries := by
  induction tr generalizing s t0 with
  | nil => exact hm
  | cons hd rest ih =>
    obtain ⟨op, t, c⟩ := hd
    obtain ⟨h01, h02⟩ := htm
    obtain ⟨hm2, hle2⟩ := stepOp_mono op t c s t0 hm hle h01
    exact ih (stepOp op t c s) t hm2 hle2 h02

/-- Claim C8: the entry sequence is append-only under every operation
except the explicit `clear_logs` reset, and along any trace whose clock
readings are non-decreasing the recorded timestamps are non-decreasing in
append order. -/
theorem append_only_and_monotone :
    (∀ (op : Op) (t : Nat) (c : String) (s : LoggerController),
        op ≠ Op.clear_logs →
          ∃ tail, (stepOp op t c s).log_entries = s.log_entries ++ tail)
      ∧ (∀ (nm : String) (t0 : Nat) (tr : List (Op × Nat × String)),
          timesMono t0 tr →
            entriesMono (run tr (LoggerController.init nm t0)).log_entries) := by
  constructor
  · intro op t c s hop
    obtain ⟨tail, heq, _⟩ := stepOp_entries op t c s hop
    exact ⟨tail, heq⟩
  · intro nm t0 tr htm
    refine run_mono tr _ t0 List.chain'_nil ?_ htm
    intro e he
    simp [LoggerController.init] at he

/-- Witness for `append_only_and_monotone` at concrete inputs. -/
theorem append_only_and_monotone_witness :
    (∃ tail,
        (stepOp (Op.info "a" none) 5 "c"
            (LoggerController.init "w8" 0)).log_entries
          = (LoggerController.init "w8" 0).log_entries ++ tail)
      ∧ entriesMono
          (run [(Op.info "a" none, 1, "c"), (Op.warning "b" none, 2, "c")]
            (LoggerController.init "w8" 0)).log_entries :=
  ⟨append_only_and_monotone.1 (Op.info "a" none) 5 "c"
      (LoggerController.init "w8" 0) (by decide),
    append_only_and_monotone.2 "w8" 0
      [(Op.info "a" none, 1, "c"), (Op.warning "b" none, 2, "c")]
      ⟨by omega, by omega, trivial⟩⟩



/-- Well-formedness of stored levels: every entry's level string is the
payload of one of the five enum members (true of every reachable state,
since `_log` always stores `level.value`). -/
def levelsWF (s : LoggerController) : Prop :=
  ∀ e ∈ s.log_entries, ∃ l : LogLevel, e.level = l.value

theorem value_injective (l1 l2 : LogLevel) (h : l1.value = l2.value) :
    l1 = l2 := by
  cases l1 <;> cases l2 <;> first | rfl | (exfalso; exact absurd h (by decide))

theorem levelsWF_stepOp (op : Op) (t : Nat) (c : String)
    (s : LoggerController) (h : levelsWF s) : levelsWF (stepOp op t c s) := by
  by_cases hop : op = Op.clear_logs
  · subst hop
    intro e he
    simp [stepOp, LoggerController.clear_logs] at he
  · obtain ⟨tail, heq, htail⟩ := stepOp_entries op t c s hop
    intro e he
    rw [heq] at he
    rcases List.mem_append.mp he with h1 | h2
    · exact h e h1
    · exact (htail e h2).2

theorem levelsWF_run (tr : List (Op × Nat × String)) (s : LoggerController)
    (h : levelsWF s) : levelsWF (run tr s) := by
  induction tr generalizing s with
  | nil => exact h
  | cons hd rest ih =>
    obtain ⟨op, t, c⟩ := hd
    exact ih _ (levelsWF_stepOp op t c s h)

theorem level_count_sum (l : List LogEntry)
    (hwf : ∀ e ∈ l, ∃ lv : LogLevel, e.level = lv.value) :
    (allLevels.map
        (fun L => (l.filter (fun e => e.level = L.value)).length)).sum
      = l.length := by
  induction l with
  | nil => simp [allLevels]
  | cons e tl ih =>
    obtain ⟨lv, hlv⟩ := hwf e (by simp)
    have iht := ih (fun x hx => hwf x (List.mem_cons_of_mem _ hx))
    simp only [allLevels, List.map_cons, List.map_nil, List.sum_cons,
      List.sum_nil] at iht ⊢
    rw [List.filter_cons, List.filter_cons, List.filter_cons,
      List.filter_cons, List.filter_cons]
    cases lv <;>
      simp [hlv, LogLevel.value] at iht ⊢ <;>
      omega


/-- Trace and entry used by the level-partition witness. -/
def c7trace : List (Op × Nat × String) := [(Op.info "a" none, 1, "c")]

/-- The single entry in the witness state. -/
def c7entry : LogEntry := ((LoggerController.init "w7" 0).info "a" none 1 "c").2

/-- Claim C7: on every reachable recorder state, `get_logs_by_level L`
returns exactly the stable-order subsequence of entries with level `L`;
the five per-level results are pairwise disjoint and their sizes sum to
the full entry count. -/
theorem get_logs_by_level_partition (nm : String) (t0 : Nat)
    (tr : List (Op × Nat × String)) :
    (∀ L : LogLevel,
        List.Sublist
          ((run tr (LoggerController.init nm t0)).get_logs_by_level L)
          (run tr (LoggerController.init nm t0)).log_entries)
      ∧ (∀ (L : LogLevel) (e : LogEntry),
          e ∈ (run tr (LoggerController.init nm t0)).get_logs_by_level L
            ↔ e ∈ (run tr (LoggerController.init nm t0)).log_entries
                ∧ e.level = L.value)
      ∧ (∀ L1 L2 : LogLevel, L1 ≠ L2 → ∀ e,
          e ∈ (run tr (LoggerController.init nm t0)).get_logs_by_level L1 →
            e ∉ (run tr (LoggerController.init nm t0)).get_logs_by_level L2)
      ∧ (allLevels.map (fun L =>
            ((run tr (LoggerController.init nm t0)).get_logs_by_level
                L).length)).sum
          = (run tr (LoggerController.init nm t0)).log_entries.length := by
  refine ⟨fun L => List.filter_sublist _, ?_, ?_, ?_⟩
  · intro L e
    simp [LoggerController.get_logs_by_level, List.mem_filter]
  · intro L1 L2 hne e h1 h2
    simp only [LoggerController.get_logs_by_level, List.mem_filter,
      decide_eq_true_eq] at h1 h2
    exact hne (value_injective L1 L2 (h1.2.symm.trans h2.2))
  · have hwf : levelsWF (run tr (LoggerController.init nm t0)) := by
      refine levelsWF_run tr _ ?_
      intro e he
      simp [LoggerController.init] at he
    exact level_count_sum _ hwf

/-- Witness for `get_logs_by_level_partition` at concrete inputs. -/
theorem get_logs_by_level_partition_witness :
    LogLevel.INFO ≠ LogLevel.ERROR
      ∧ c7entry
          ∉ (run c7trace (LoggerController.init "w7" 0)).get_logs_by_level
              LogLevel.ERROR :=
  ⟨by decide,
    (get_logs_by_level_partition "w7" 0 c7trace).2.2.1 LogLevel.INFO
      LogLevel.ERROR (by decide) c7entry (by decide)⟩


end PlwDemo
